import Mathlib

/-!
Shallow embedding of the twilio-chatbot repository (FastAPI + Twilio +
Gemini) and proofs about its webhook verification, webhook normalization,
session registry and outbound-address normalization.

Python strings are Lean `String`s; form/query data is an association list
looked up front-to-back (the semantics of `dict.get` on the dict built
from the request form). Python truthiness of a string is "non-empty";
of an optional value, "present and non-empty".
-/

/-- Model of `s.startswith(p)` on the underlying character lists. -/
def charsStartWith : List Char → List Char → Bool
  | _, [] => true
  | [], _ :: _ => false
  | c :: cs, p :: ps => c == p && charsStartWith cs ps

/-- Python `s.startswith(p)`. -/
def strStarts (s p : String) : Bool :=
  charsStartWith s.data p.data

/-- Fueled worker for `str.replace(pat, "")`: scans left to right,
removing each non-overlapping occurrence of `pat`. The fuel is the length
of the scanned list, which strictly bounds the recursion. -/
def replaceAllAux (pat : List Char) : Nat → List Char → List Char
  | _, [] => []
  | 0, s => s
  | fuel + 1, c :: cs =>
    if pat ≠ [] && charsStartWith (c :: cs) pat then
      replaceAllAux pat fuel (List.drop (pat.length - 1) cs)
    else
      c :: replaceAllAux pat fuel cs

/-- Python `s.replace(pat, "")`. -/
def pyReplaceAll (s pat : String) : String :=
  ⟨replaceAllAux pat.data s.data.length s.data⟩

/-- Python `s.lstrip('+')`: drop every leading plus sign. -/
def pyLstripPlus (s : String) : String :=
  ⟨s.data.dropWhile (· == '+')⟩

/-- Python truthiness of an optional string (`None` and `""` are falsy). -/
def pyTruthyOpt : Option String → Bool
  | none => false
  | some s => !(s == "")

/-- Whitespace accepted by Python `int()` around the digits. -/
def isPySpace (c : Char) : Bool :=
  c == ' ' || c == '\t' || c == '\n' || c == '\r'

/-- Value of a decimal digit character, `none` on anything else. -/
def charDigit? (c : Char) : Option Nat :=
  if '0' ≤ c ∧ c ≤ '9' then some (c.toNat - '0'.toNat) else none

/-- Reads a non-empty all-digit character list as a natural number. -/
def digitsToNat? (cs : List Char) : Option Nat :=
  if cs = [] then none
  else
    cs.foldl
      (fun acc c =>
        match acc, charDigit? c with
        | some a, some d => some (a * 10 + d)
        | _, _ => none)
      (some 0)

/-- Model of Python `int(s)` on strings: optional surrounding whitespace,
an optional sign, then decimal digits; `none` models the `ValueError`. -/
def pyInt? (s : String) : Option Int :=
  let cs := ((s.data.dropWhile isPySpace).reverse.dropWhile isPySpace).reverse
  match cs with
  | '-' :: rest => (digitsToNat? rest).map (fun k => -(k : Int))
  | '+' :: rest => (digitsToNat? rest).map (fun k => (k : Int))
  | other => (digitsToNat? other).map (fun k => (k : Int))

/-- Form data delivered to the webhook: the request dict, as key/value
pairs. `dict.get` returns the first binding of the key. -/
def FormData := List (String × String)

/-- `data.get(k)`. -/
def fdGet (data : FormData) (k : String) : Option String :=
  (List.find? (fun p => p.1 == k) data).map (·.2)

/-- `data.get(k, dflt)`. -/
def fdGetD (data : FormData) (k dflt : String) : String :=
  (fdGet data k).getD dflt

/-! ## Webhook verification (`handlers/webhook_handler.verify_webhook`) -/

/-- A GET /webhook request, as `verify_webhook` sees it: the
`X-Twilio-Signature` header (`none` when the header is absent) and the
`hub.verify_token` / `hub.challenge` query parameters. -/
structure VerifyRequest where
  xTwilioSignature : Option String
  hubVerifyToken : Option String
  hubChallenge : Option String
deriving DecidableEq

/-- Outcome of `verify_webhook`: a returned body string, or the raised
`HTTPException(403, detail)`. -/
inductive VerifyResult where
  | ok (body : String)
  | forbidden (detail : String)
deriving DecidableEq

/-- Detail string of the 403 raised by `verify_webhook`. -/
def forbiddenDetail : String := "Token de verificação inválido ou ausente"

/-- `verify_webhook(request)`, with the configured `Config.VERIFY_TOKEN`
passed as `cfg`. Mirrors the source: a truthy signature header returns
"ok" at once; otherwise the token parameter is compared with the secret
and the challenge (or "ok" when the challenge is absent or empty) is
echoed; otherwise a 403 is raised. -/
def verify_webhook (cfg : String) (req : VerifyRequest) : VerifyResult :=
  if pyTruthyOpt req.xTwilioSignature then
    .ok "ok"
  else if req.hubVerifyToken = some cfg then
    let challenge := req.hubChallenge.getD ""
    .ok (if challenge == "" then "ok" else challenge)
  else
    .forbidden forbiddenDetail

/-- HTTP-level response of the GET /webhook route. -/
inductive HttpVerifyResponse where
  | plain (status : Nat) (body : String)
  | httpError (status : Nat) (detail : String)
deriving DecidableEq

/-- `app.verify_webhook_endpoint`: wraps the result of `verify_webhook`
in a 200 plain-text response and re-raises the `HTTPException` (which
FastAPI renders with its status code, here 403). -/
def verify_webhook_endpoint (cfg : String) (req : VerifyRequest) : HttpVerifyResponse :=
  match verify_webhook cfg req with
  | .ok body => .plain 200 body
  | .forbidden detail => .httpError 403 detail

/-! ## Webhook normalization (`handlers/webhook_handler.process_webhook`) -/

/-- The nested `raw_message` dict of a normalized message. -/
structure RawMessage where
  from_ : String
  toAddr : String
  type_ : String
  text : Option String
  message_sid : Option String
deriving DecidableEq

/-- The normalized message returned by `process_webhook` on success. -/
structure NormalizedMessage where
  sender_id : String
  message_type : String
  timestamp : String
  message_sid : Option String
  account_sid : Option String
  message_body : String
  media_urls : List String
  raw_message : RawMessage
deriving DecidableEq

/-- Outcome of `process_webhook`: the `status: ignored`, `status: error`
or `status: success` dict. -/
inductive ProcessResult where
  | ignored (type_ : String)
  | error (detail : String)
  | success (out : NormalizedMessage)
deriving DecidableEq

/-- Strips the transport prefix the way the source does:
`if s.startswith("whatsapp:"): s = s.replace("whatsapp:", "")`. -/
def stripTransport (s : String) : String :=
  if strStarts s "whatsapp:" then pyReplaceAll s "whatsapp:" else s

/-- The `MediaUrl{i}` field, dropped when absent or empty (the source
appends `data.get(f"MediaUrl{i}")` only when it is truthy). -/
def mediaUrlAt (data : FormData) (i : Nat) : Option String :=
  match fdGet data ("MediaUrl" ++ toString i) with
  | some u => if u == "" then none else some u
  | none => none

/-- The media URLs collected for indices `0 .. k-1`, in index order. -/
def collectMediaUrls (data : FormData) (k : Nat) : List String :=
  (List.range k).filterMap (mediaUrlAt data)

/-- `process_webhook(data)`. Mirrors the source: extracts the Twilio form
fields, strips the `whatsapp:` prefix of From/To, coerces `NumMedia` with
`int(...)` defaulting to `0` when the coercion raises, ignores deliveries
whose `MessageSid` or stripped `From` is falsy, collects the truthy
`MediaUrl0..MediaUrl{n-1}` fields, and classifies the kind from the
non-emptiness of that list. For string-valued form data no statement of
the`try` body can raise `KeyError`/`ValueError`/`TypeError` (the only
fallible coercion is guarded by the inner default-to-zero handler), so
the `status: error` branch of the source is never taken here. -/
def process_webhook (data : FormData) : ProcessResult :=
  let message_sid := fdGet data "MessageSid"
  let account_sid := fdGet data "AccountSid"
  let from_number := stripTransport (fdGetD data "From" "")
  let to_number := stripTransport (fdGetD data "To" "")
  let message_body := fdGetD data "Body" ""
  let num_media : Int := (pyInt? (fdGetD data "NumMedia" "0")).getD 0
  let timestamp := fdGetD data "Timestamp" ""
  if !(pyTruthyOpt message_sid) || from_number == "" then
    .ignored "invalid_data"
  else
    let media_urls := if 0 < num_media then collectMediaUrls data num_media.toNat else []
    let message_type := if media_urls.isEmpty then "text" else "media"
    .success {
      sender_id := from_number
      message_type := message_type
      timestamp := timestamp
      message_sid := message_sid
      account_sid := account_sid
      message_body := message_body
      media_urls := media_urls
      raw_message := {
        from_ := from_number
        toAddr := to_number
        type_ := message_type
        text := if message_type == "text" then some message_body else none
        message_sid := message_sid } }

/-- Status string of a `process_webhook` outcome. -/
def resultStatus : ProcessResult → String
  | .ignored _ => "ignored"
  | .error _ => "error"
  | .success _ => "success"

/-- Whether a `process_webhook` outcome is the error outcome. -/
def isErrorResult : ProcessResult → Bool
  | .error _ => true
  | _ => false

/-- The `media_urls` of a successful outcome, `[]` otherwise. -/
def resultMediaUrls : ProcessResult → List String
  | .success out => out.media_urls
  | _ => []

/-- The `message_type` of a successful outcome. -/
def resultMessageType : ProcessResult → Option String
  | .success out => some out.message_type
  | _ => none

/-! ## Session registry (`services/gemini_client.ChatSessionManager`) -/

/-- Hardcoded fallback system instruction of `GeminiChatSession.__init__`. -/
def defaultInstruction : String :=
  "Você é um atendente comercial da CryptoLock, vendedor de soluções de segurança de pipeline CI/CD. " ++
  "Mantenha as respostas profissionais, informativas e focadas nos benefícios do produto. " ++
  "Responda no idioma do usuário (Português ou Inglês)."

/-- Resolution of the system instruction in `GeminiChatSession.__init__`:
the explicit argument when given, else the loaded template (the result of
`load_prompt_template()`, whose file read and YAML parse are external and
supplied here as `tmpl`), else the hardcoded default. -/
def resolveInstruction (tmpl : Option String) (si : Option String) : String :=
  match si with
  | some s => s
  | none =>
    match tmpl with
    | some t => t
    | none => defaultInstruction

/-- A `GeminiChatSession`: the owning user id, the system instruction
fixed at construction, and `sessionId`, an identity tag for the object
(and its remote chat handle), fresh per construction, which lets the
embedding express "the same session object". -/
structure GeminiChatSession where
  user_id : String
  system_instruction : String
  sessionId : Nat
deriving DecidableEq

/-- The `ChatSessionManager` state: the `sessions` dict as an association
list in insertion order, plus the counter supplying fresh `sessionId`s. -/
structure ChatSessionManager where
  sessions : List (String × GeminiChatSession)
  nextId : Nat
deriving DecidableEq

/-- The freshly constructed manager (`sessions = {}`). -/
def emptyManager : ChatSessionManager := { sessions := [], nextId := 0 }

/-- `self.sessions.get(user_id)`, also the membership test
`user_id in self.sessions`. -/
def lookupSession (m : ChatSessionManager) (uid : String) : Option GeminiChatSession :=
  (List.find? (fun p => p.1 == uid) m.sessions).map (·.2)

/-- `ChatSessionManager.get_or_create_session(user_id, system_instruction)`:
returns the stored session when the id is present; otherwise constructs a
`GeminiChatSession` (with the resolved instruction and a fresh identity),
stores it under the id, and returns it. `tmpl` stands for the prompt
template the constructor would load. -/
def get_or_create_session (m : ChatSessionManager) (uid : String)
    (si : Option String) (tmpl : Option String) :
    GeminiChatSession × ChatSessionManager :=
  match lookupSession m uid with
  | some s => (s, m)
  | none =>
    let s : GeminiChatSession :=
      { user_id := uid
        system_instruction := resolveInstruction tmpl si
        sessionId := m.nextId }
    (s, { sessions := m.sessions ++ [(uid, s)], nextId := m.nextId + 1 })

/-- `ChatSessionManager.get_session(user_id)`. -/
def get_session (m : ChatSessionManager) (uid : String) : Option GeminiChatSession :=
  lookupSession m uid

/-- `ChatSessionManager.delete_session(user_id)`: removes the binding when
present and reports whether it existed. -/
def delete_session (m : ChatSessionManager) (uid : String) :
    Bool × ChatSessionManager :=
  if (lookupSession m uid).isSome then
    (true, { m with sessions := m.sessions.filter (fun p => !(p.1 == uid)) })
  else
    (false, m)

/-- `ChatSessionManager.clear_all_sessions()`. -/
def clear_all_sessions (m : ChatSessionManager) : ChatSessionManager :=
  { m with sessions := [] }

/-- One state-changing registry operation, for stating the registry
invariant over arbitrary operation sequences. -/
inductive RegistryOp where
  | create (uid : String) (si : Option String) (tmpl : Option String)
  | del (uid : String)
  | clear
deriving DecidableEq

/-- Applies one registry operation to the manager state. -/
def applyOp (m : ChatSessionManager) : RegistryOp → ChatSessionManager
  | .create uid si tmpl => (get_or_create_session m uid si tmpl).2
  | .del uid => (delete_session m uid).2
  | .clear => clear_all_sessions m

/-- Applies a sequence of registry operations, first one first. -/
def applyOps (m : ChatSessionManager) (ops : List RegistryOp) : ChatSessionManager :=
  ops.foldl applyOp m

/-- Number of registry entries stored under a user id. -/
def userCount (m : ChatSessionManager) (uid : String) : Nat :=
  m.sessions.countP (fun p => p.1 == uid)

/-! ## Outbound sender (`services/twilio_service.TwilioWhatsAppClient`) -/

/-- The recipient-address normalization at the top of
`send_text_message`: a bare number gets the `whatsapp:+` scheme (after
stripping leading plus signs), a `+`-prefixed number gets `whatsapp:`
prepended, and an already `whatsapp:+`-prefixed address is kept. -/
def normalizeRecipient (r : String) : String :=
  if !(strStarts r "whatsapp:+") && !(strStarts r "+") then
    "whatsapp:+" ++ pyLstripPlus r
  else if strStarts r "+" then
    "whatsapp:" ++ r
  else
    r

/-! ## POST /webhook orchestration (`app.handle_webhook`) -/

/-- Behavior of `chat_session.send_message` for the one request being
modelled: the returned reply, or the raised exception's message. -/
inductive AiOutcome where
  | reply (text : String)
  | raised (msg : String)
deriving DecidableEq

/-- Behavior of `twilio_client.send_text_message` for the one request
being modelled: the returned message sid, or the raised
`TwilioMessageError`'s message. -/
inductive SendOutcome where
  | sent (sid : String)
  | failed (err : String)
deriving DecidableEq

/-- The external collaborators of one `handle_webhook` invocation: the
loaded prompt template, the Gemini call behavior, the Twilio send
behavior, and whether `twilio_client` was initialized. -/
structure HandlerEnv where
  tmpl : Option String
  aiResult : AiOutcome
  sendResult : SendOutcome
  twilioAvailable : Bool
deriving DecidableEq

/-- The JSON acknowledgment body `{"status": ..., "message": ...}`. -/
structure Ack where
  status : String
  message : String
deriving DecidableEq

/-- Observable effect of one `handle_webhook` invocation: the returned
acknowledgment, the session-manager state afterwards, and the outbound
send attempts made (recipient, body), in order. -/
structure HandlerOutput where
  ack : Ack
  manager : ChatSessionManager
  sends : List (String × String)
deriving DecidableEq

/-- The apology substituted when the Gemini call raises. -/
def apologyText : String := "Desculpe, ocorreu um erro ao processar sua mensagem."

/-- `app.handle_webhook(request)` after the form dict is extracted.
Mirrors the source: normalizes via `process_webhook`; acknowledges
ignored events and processing errors without touching the registry;
for a non-empty text message obtains or creates the sender's session,
substitutes the apology when the Gemini call raises, attempts the Twilio
send when the client is available (reporting `status: error` when it
raises `TwilioMessageError`, with no retry), and otherwise acknowledges
media or unsupported kinds. The Python handler catches every exception,
so the model is a total function into `HandlerOutput`. -/
def handle_webhook (env : HandlerEnv) (m : ChatSessionManager) (data : FormData) :
    HandlerOutput :=
  match process_webhook data with
  | .ignored _ =>
    { ack := { status := "success", message := "Evento ignorado" }, manager := m, sends := [] }
  | .error detail =>
    { ack := { status := "error", message := "Erro ao processar: " ++ detail }
      manager := m, sends := [] }
  | .success out =>
    if out.message_type == "text" && !(out.message_body == "") then
      if out.sender_id == "" then
        { ack := { status := "success", message := "Mensagem vazia" }, manager := m, sends := [] }
      else
        let created := get_or_create_session m out.sender_id none env.tmpl
        let m1 := created.2
        let ai_response :=
          match env.aiResult with
          | .reply t => t
          | .raised _ => apologyText
        if env.twilioAvailable then
          match env.sendResult with
          | .sent _ =>
            { ack := { status := "success", message := "Mensagem processada" }
              manager := m1, sends := [(out.sender_id, ai_response)] }
          | .failed e =>
            { ack := { status := "error", message := "Falha ao enviar: " ++ e }
              manager := m1, sends := [(out.sender_id, ai_response)] }
        else
          { ack := { status := "warning", message := "Twilio não disponível" }
            manager := m1, sends := [] }
    else if out.message_type == "media" then
      { ack := { status := "success", message := "Mídia recebida" }, manager := m, sends := [] }
    else
      { ack := { status := "success", message := "Tipo de mensagem não suportado" }
        manager := m, sends := [] }

/-! ## Helper lemmas -/

/-- `find?` skips a prefix list in which nothing matches. -/
theorem find?_append_of_none {α : Type} (p : α → Bool) (l l2 : List α)
    (h : l.find? p = none) : (l ++ l2).find? p = l2.find? p := by
  induction l with
  | nil => rfl
  | cons a t ih =>
    by_cases hpa : p a
    · rw [List.find?_cons_of_pos _ hpa] at h
      exact absurd h (by simp)
    · rw [List.find?_cons_of_neg _ hpa] at h
      rw [List.cons_append, List.find?_cons_of_neg _ hpa]
      exact ih h

/-- Right after `get_or_create_session`, the id is bound to the returned
session. -/
theorem lookup_after_create (m : ChatSessionManager) (uid : String)
    (si tmpl : Option String) :
    lookupSession (get_or_create_session m uid si tmpl).2 uid =
      some (get_or_create_session m uid si tmpl).1 := by
  unfold get_or_create_session
  cases hl : lookupSession m uid with
  | some s => simpa using hl
  | none =>
    have hf : m.sessions.find? (fun p => p.1 == uid) = none := by
      cases hfind : m.sessions.find? (fun p => p.1 == uid) with
      | none => rfl
      | some p =>
        unfold lookupSession at hl
        rw [hfind] at hl
        simp at hl
    simp only [lookupSession]
    rw [find?_append_of_none _ _ _ hf]
    rw [List.find?_cons_of_pos _ (by simp)]
    rfl

/-- Filtering cannot increase a `countP`. -/
theorem countP_filter_le {α : Type} (p q : α → Bool) (l : List α) :
    (l.filter q).countP p ≤ l.countP p := by
  induction l with
  | nil => simp
  | cons a t ih =>
    rw [List.filter_cons]
    by_cases hq : q a = true
    · rw [if_pos hq]
      simp only [List.countP_cons]
      omega
    · rw [if_neg hq]
      simp only [List.countP_cons]
      omega

/-- One registry operation preserves "at most one session per user id". -/
theorem userCount_applyOp_le (m : ChatSessionManager) (op : RegistryOp)
    (h : ∀ u, userCount m u ≤ 1) : ∀ u, userCount (applyOp m op) u ≤ 1 := by
  intro u
  cases op with
  | create uid si tmpl =>
    simp only [applyOp, get_or_create_session]
    cases hl : lookupSession m uid with
    | some s => exact h u
    | none =>
      have hf : m.sessions.find? (fun p => p.1 == uid) = none := by
        cases hfind : m.sessions.find? (fun p => p.1 == uid) with
        | none => rfl
        | some p =>
          unfold lookupSession at hl
          rw [hfind] at hl
          simp at hl
      have hzero : m.sessions.countP (fun p => p.1 == uid) = 0 := by
        rw [List.countP_eq_zero]
        intro a ha
        exact List.find?_eq_none.mp hf a ha
      simp only [userCount, List.countP_append]
      by_cases hu : uid = u
      · subst hu
        rw [hzero]
        simp [List.countP_cons]
      · have h1 : ([(uid, GeminiChatSession.mk uid (resolveInstruction tmpl si) m.nextId)].countP
            (fun p => p.1 == u)) = 0 := by
          simp [List.countP_cons, hu]
        rw [h1]
        simpa [userCount] using h u
  | del uid =>
    simp only [applyOp, delete_session]
    by_cases hl : (lookupSession m uid).isSome
    · simp only [hl, if_true, userCount]
      calc (m.sessions.filter (fun p => !(p.1 == uid))).countP (fun p => p.1 == u)
          ≤ m.sessions.countP (fun p => p.1 == u) := countP_filter_le _ _ _
        _ ≤ 1 := h u
    · simp only [hl, if_false]
      exact h u
  | clear =>
    simp [applyOp, clear_all_sessions, userCount]

/-- Operation sequences preserve "at most one session per user id". -/
theorem userCount_applyOps_le (ops : List RegistryOp) :
    ∀ m : ChatSessionManager, (∀ u, userCount m u ≤ 1) →
      ∀ u, userCount (applyOps m ops) u ≤ 1 := by
  induction ops with
  | nil => intro m h; exact h
  | cons op t ih =>
    intro m h
    have : applyOps m (op :: t) = applyOps (applyOp m op) t := rfl
    rw [this]
    exact ih (applyOp m op) (userCount_applyOp_le m op h)

/-- A successful normalization has a truthy sender id (the validation
rejects a falsy stripped `From`). -/
theorem success_sender_ne_empty (data : FormData) (out : NormalizedMessage)
    (h : process_webhook data = .success out) : (out.sender_id == "") = false := by
  simp only [process_webhook] at h
  split at h
  · exact absurd h (by simp)
  · rename_i hc
    have hout := ProcessResult.success.inj h
    rw [← hout]
    simp only [Bool.or_eq_true, Bool.not_eq_true'] at hc
    push_neg at hc
    simpa using hc.2

/-! ## Claim C1 -/

/-- Claim C1 as stated is false: a request that carries the
`X-Twilio-Signature` header with the empty string as value (and no
matching token) is not answered with "ok" — the empty header value is
falsy in Python, so the handler falls through to the token check and
raises the 403. -/
theorem c1_counterexample :
    (VerifyRequest.mk (some "") (some "wrong-token") none).xTwilioSignature = some "" ∧
    verify_webhook "secret-token" (VerifyRequest.mk (some "") (some "wrong-token") none) =
      .forbidden forbiddenDetail := by
  exact ⟨rfl, by decide⟩

/-- Claim C1 (amended): for every verification request carrying an
`X-Twilio-Signature` header with a non-empty value, whatever that value
and whatever `hub.verify_token` carries, `verify_webhook` approves the
request with the fixed string "ok"; no cryptographic check is performed
(the result does not depend on the header value, the secret, or any
other request datum). -/
theorem c1_signature_header_approves (cfg : String) (req : VerifyRequest) (s : String)
    (hs : req.xTwilioSignature = some s) (hne : s ≠ "") :
    verify_webhook cfg req = .ok "ok" := by
  unfold verify_webhook
  rw [hs]
  simp [pyTruthyOpt, hne]

/-- Witness for C1: a concrete signed request is approved with "ok". -/
theorem c1_witness :
    verify_webhook "secret-token"
      (VerifyRequest.mk (some "dGhpcyBpcyBub3QgY2hlY2tlZA==") (some "wrong-token") (some "xyz")) =
      .ok "ok" :=
  c1_signature_header_approves "secret-token" _ "dGhpcyBpcyBub3QgY2hlY2tlZA==" rfl (by decide)

/-! ## Claim C7 -/

/-- Claim C7: without an `X-Twilio-Signature` header, a matching
`hub.verify_token` yields a 200 plain-text response carrying the
challenge (or "ok" when the challenge is absent or empty), and a
non-matching (or absent) token yields the 403. -/
theorem c7_token_fallback (cfg : String) (req : VerifyRequest)
    (h : req.xTwilioSignature = none) :
    verify_webhook_endpoint cfg req =
      (if req.hubVerifyToken = some cfg then
        HttpVerifyResponse.plain 200
          (if req.hubChallenge.getD "" == "" then "ok" else req.hubChallenge.getD "")
      else
        HttpVerifyResponse.httpError 403 forbiddenDetail) := by
  unfold verify_webhook_endpoint verify_webhook
  rw [h]
  by_cases ht : req.hubVerifyToken = some cfg
  · simp [pyTruthyOpt, ht]
  · simp [pyTruthyOpt, ht]

/-- Witness for C7: the spec scenario — matching token with challenge
"xyz" gives body "xyz" with status 200; a mismatched token gives 403. -/
theorem c7_witness :
    verify_webhook_endpoint "secret-tok"
        (VerifyRequest.mk none (some "secret-tok") (some "xyz")) =
      HttpVerifyResponse.plain 200 "xyz" ∧
    verify_webhook_endpoint "secret-tok"
        (VerifyRequest.mk none (some "other-tok") (some "xyz")) =
      HttpVerifyResponse.httpError 403 forbiddenDetail := by
  constructor
  · have h := c7_token_fallback "secret-tok"
      (VerifyRequest.mk none (some "secret-tok") (some "xyz")) rfl
    simpa using h
  · have h := c7_token_fallback "secret-tok"
      (VerifyRequest.mk none (some "other-tok") (some "xyz")) rfl
    simpa using h

/-! ## Claim C9 -/

/-- Claim C9: the recipient-address normalization of `send_text_message`
is idempotent on already-prefixed destinations — any address that starts
with `whatsapp:+` is left unchanged. -/
theorem c9_normalize_idempotent (r : String)
    (h : strStarts r "whatsapp:+" = true) :
    normalizeRecipient r = r := by
  have hplus : strStarts r "+" = false := by
    unfold strStarts at h ⊢
    have hw : ("whatsapp:+" : String).data = 'w' :: "hatsapp:+".data := rfl
    have hp : ("+" : String).data = ['+'] := rfl
    rw [hw] at h
    rw [hp]
    cases hd : r.data with
    | nil =>
      rw [hd] at h
      exact absurd h (by simp [charsStartWith])
    | cons c cs =>
      rw [hd] at h
      simp only [charsStartWith, Bool.and_eq_true, beq_iff_eq] at h
      rcases h with ⟨hc, -⟩
      subst hc
      simp [charsStartWith]
  unfold normalizeRecipient
  rw [h, hplus]
  simp

/-- Witness for C9: a concrete already-prefixed address is unchanged. -/
theorem c9_witness :
    normalizeRecipient "whatsapp:+15551234567" = "whatsapp:+15551234567" :=
  c9_normalize_idempotent "whatsapp:+15551234567" (by decide)

/-! ## Claim C10 -/

/-- Claim C10: `get_or_create_session` on an id already in the registry
returns the stored session unmodified and leaves the whole manager —
hence every other entry — unchanged; the supplied `system_instruction`
(and the template) play no role. -/
theorem c10_get_or_create_existing (m : ChatSessionManager) (uid : String)
    (s : GeminiChatSession) (si tmpl : Option String)
    (h : lookupSession m uid = some s) :
    get_or_create_session m uid si tmpl = (s, m) := by
  unfold get_or_create_session
  rw [h]

/-- Witness for C10: a registry holding a session for "u1" returns it
untouched even when a different instruction is supplied. -/
theorem c10_witness :
    get_or_create_session
        (ChatSessionManager.mk [("u1", GeminiChatSession.mk "u1" defaultInstruction 0)] 1)
        "u1" (some "another instruction") (some "another template") =
      (GeminiChatSession.mk "u1" defaultInstruction 0,
        ChatSessionManager.mk [("u1", GeminiChatSession.mk "u1" defaultInstruction 0)] 1) :=
  c10_get_or_create_existing _ "u1" _ (some "another instruction") (some "another template") rfl

/-! ## Claim C8 -/

/-- Claim C8: `delete_session` on an absent id returns `False` and leaves
the registry unchanged; on a present id it returns `True` and the id is
afterwards absent. -/
theorem c8_delete_session (m : ChatSessionManager) (uid : String) :
    ((lookupSession m uid).isSome = false → delete_session m uid = (false, m)) ∧
    ((lookupSession m uid).isSome = true →
      (delete_session m uid).1 = true ∧
      lookupSession (delete_session m uid).2 uid = none) := by
  constructor
  · intro h
    unfold delete_session
    simp [h]
  · intro h
    unfold delete_session
    rw [if_pos h]
    refine ⟨rfl, ?_⟩
    simp only [lookupSession]
    have hnone : (m.sessions.filter (fun p => !(p.1 == uid))).find?
        (fun p => p.1 == uid) = none := by
      rw [List.find?_eq_none]
      intro x hx
      have hmem := (List.mem_filter.mp hx).2
      simp only [Bool.not_eq_true'] at hmem
      simp [hmem]
    rw [hnone]
    rfl

/-- Witness for C8, at a registry holding exactly a session for "u1":
deleting "u1" succeeds and removes it (the absent-id conjunct is
vacuous there). -/
theorem c8_witness :
    ((lookupSession (ChatSessionManager.mk
        [("u1", GeminiChatSession.mk "u1" defaultInstruction 0)] 1) "u1").isSome = false →
      delete_session (ChatSessionManager.mk
        [("u1", GeminiChatSession.mk "u1" defaultInstruction 0)] 1) "u1" =
        (false, ChatSessionManager.mk
          [("u1", GeminiChatSession.mk "u1" defaultInstruction 0)] 1)) ∧
    ((lookupSession (ChatSessionManager.mk
        [("u1", GeminiChatSession.mk "u1" defaultInstruction 0)] 1) "u1").isSome = true →
      (delete_session (ChatSessionManager.mk
        [("u1", GeminiChatSession.mk "u1" defaultInstruction 0)] 1) "u1").1 = true ∧
      lookupSession (delete_session (ChatSessionManager.mk
        [("u1", GeminiChatSession.mk "u1" defaultInstruction 0)] 1) "u1").2 "u1" = none) :=
  c8_delete_session _ "u1"

/-! ## Claim C2 -/

/-- Claim C2 as stated is false: with `NumMedia = "2"` (a positive,
numeric media count) but no `MediaUrl0`/`MediaUrl1` fields present, the
collected list is empty, so `process_webhook` classifies the message as
"text", not "media". -/
theorem c2_counterexample :
    pyInt? "2" = some 2 ∧ (0 : Int) < 2 ∧
    process_webhook
        [("MessageSid", "SM2"), ("From", "whatsapp:+15551234567"), ("NumMedia", "2")] =
      .success
        { sender_id := "+15551234567"
          message_type := "text"
          timestamp := ""
          message_sid := some "SM2"
          account_sid := none
          message_body := ""
          media_urls := []
          raw_message :=
            { from_ := "+15551234567", toAddr := "", type_ := "text"
              text := some "", message_sid := some "SM2" } } := by
  refine ⟨rfl, by decide, ?_⟩
  rfl

/-- Claim C2 (amended): for every mapping with a positive, numeric media
count `n` that passes the sid/sender validation, the success outcome's
`media_urls` collects exactly the truthy `MediaUrl0..MediaUrl{n-1}`
fields, in index order, skipping absent (or empty) indices without
error, and the message is classified "media" exactly when that list is
non-empty — otherwise "text". -/
theorem c2_media_collection (data : FormData) (n : Int)
    (hn : pyInt? (fdGetD data "NumMedia" "0") = some n)
    (hpos : 0 < n)
    (hsid : pyTruthyOpt (fdGet data "MessageSid") = true)
    (hfrom : stripTransport (fdGetD data "From" "") ≠ "") :
    resultStatus (process_webhook data) = "success" ∧
    resultMediaUrls (process_webhook data) = collectMediaUrls data n.toNat ∧
    resultMessageType (process_webhook data) =
      some (if (collectMediaUrls data n.toNat).isEmpty then "text" else "media") := by
  have h1 : (stripTransport (fdGetD data "From" "") == "") = false :=
    beq_eq_false_iff_ne.mpr hfrom
  simp only [process_webhook, hn, Option.getD_some, hsid, h1, Bool.not_true, Bool.false_or,
    Bool.false_eq_true, if_false, if_pos hpos, resultStatus, resultMediaUrls, resultMessageType]
  refine ⟨?_, ?_, ?_⟩ <;> first | rfl | trivial

/-- Witness for C2: the spec scenario — `NumMedia = "2"` with both URLs
present collects `["http://a", "http://b"]` and classifies "media". -/
theorem c2_witness :
    resultStatus (process_webhook
      [("MessageSid", "SM2"), ("From", "whatsapp:+15551234567"), ("NumMedia", "2"),
        ("MediaUrl0", "http://a"), ("MediaUrl1", "http://b")]) = "success" ∧
    resultMediaUrls (process_webhook
      [("MessageSid", "SM2"), ("From", "whatsapp:+15551234567"), ("NumMedia", "2"),
        ("MediaUrl0", "http://a"), ("MediaUrl1", "http://b")]) = ["http://a", "http://b"] ∧
    resultMessageType (process_webhook
      [("MessageSid", "SM2"), ("From", "whatsapp:+15551234567"), ("NumMedia", "2"),
        ("MediaUrl0", "http://a"), ("MediaUrl1", "http://b")]) = some "media" := by
  have h := c2_media_collection
    [("MessageSid", "SM2"), ("From", "whatsapp:+15551234567"), ("NumMedia", "2"),
      ("MediaUrl0", "http://a"), ("MediaUrl1", "http://b")]
    2 rfl (by decide) rfl (by decide)
  simpa using h

/-! ## Claim C3 -/

/-- Claim C3 as stated is false: a non-numeric `NumMedia` ("abc") does
not produce the error outcome — the `int(...)` failure is caught by the
inner handler, the count defaults to zero, and the delivery is
normalized successfully. -/
theorem c3_counterexample :
    pyInt? "abc" = none ∧
    resultStatus (process_webhook
      [("MessageSid", "SM3"), ("From", "whatsapp:+15551234567"),
        ("Body", "hi"), ("NumMedia", "abc")]) = "success" := by
  exact ⟨rfl, rfl⟩

/-- Claim C3 (amended): for every mapping whose `NumMedia` fails integer
coercion, `process_webhook` coerces the media count to zero and proceeds
normally: the outcome is never the error outcome, no media URL is
collected, and the message is never classified "media". -/
theorem c3_coercion_defaults_to_zero (data : FormData)
    (h : pyInt? (fdGetD data "NumMedia" "0") = none) :
    isErrorResult (process_webhook data) = false ∧
    resultMediaUrls (process_webhook data) = [] ∧
    resultMessageType (process_webhook data) ≠ some "media" := by
  have h0 : ¬((0 : Int) < 0) := lt_irrefl 0
  simp only [process_webhook, h, Option.getD_none, if_neg h0]
  split
  · exact ⟨rfl, rfl, by simp [resultMessageType]⟩
  · refine ⟨rfl, rfl, ?_⟩
    simp [resultMessageType]

/-- Witness for C3: `NumMedia = "two"` defaults to zero and the message
is normalized as a mediafree text message. -/
theorem c3_witness :
    isErrorResult (process_webhook
      [("MessageSid", "SM4"), ("From", "+15559876543"), ("NumMedia", "two")]) = false ∧
    resultMediaUrls (process_webhook
      [("MessageSid", "SM4"), ("From", "+15559876543"), ("NumMedia", "two")]) = [] ∧
    resultMessageType (process_webhook
      [("MessageSid", "SM4"), ("From", "+15559876543"), ("NumMedia", "two")]) ≠
      some "media" :=
  c3_coercion_defaults_to_zero
    [("MessageSid", "SM4"), ("From", "+15559876543"), ("NumMedia", "two")] rfl

/-! ## Claim C4 -/

/-- Claim C4: a mapping whose `MessageSid` is absent or empty, or whose
sender id is empty after stripping the transport prefix, yields
`{status: ignored, type: invalid_data}`, and `handle_webhook` then
acknowledges success ("Evento ignorado") leaving the session registry
untouched and attempting no outbound send. -/
theorem c4_invalid_data_ignored (data : FormData) (env : HandlerEnv)
    (m : ChatSessionManager)
    (h : pyTruthyOpt (fdGet data "MessageSid") = false ∨
      stripTransport (fdGetD data "From" "") = "") :
    process_webhook data = .ignored "invalid_data" ∧
    handle_webhook env m data =
      { ack := { status := "success", message := "Evento ignorado" }
        manager := m, sends := [] } := by
  have hp : process_webhook data = .ignored "invalid_data" := by
    rcases h with h | h
    · simp [process_webhook, h]
    · simp [process_webhook, h]
  refine ⟨hp, ?_⟩
  unfold handle_webhook
  rw [hp]

/-- Witness for C4: the spec scenario — empty `MessageSid` with a valid
sender is ignored; the registry stays empty and nothing is sent. -/
theorem c4_witness :
    process_webhook [("MessageSid", ""), ("From", "whatsapp:+15551234567")] =
      .ignored "invalid_data" ∧
    handle_webhook (HandlerEnv.mk none (.reply "hello") (.sent "SMX") true) emptyManager
        [("MessageSid", ""), ("From", "whatsapp:+15551234567")] =
      { ack := { status := "success", message := "Evento ignorado" }
        manager := emptyManager, sends := [] } :=
  c4_invalid_data_ignored [("MessageSid", ""), ("From", "whatsapp:+15551234567")]
    (HandlerEnv.mk none (.reply "hello") (.sent "SMX") true) emptyManager (Or.inl rfl)

/-! ## Claim C6 -/

/-- Claim C6: on the text-message path with the Twilio client available,
a raising Gemini call is absorbed into the fixed apology text and the
outbound send is still attempted exactly once with that text; a send
raising `TwilioMessageError` is absorbed into a JSON acknowledgment with
status "error" and is not retried; the handler returns an acknowledgment
in every combination (it never raises). -/
theorem c6_vendor_failures_absorbed (env : HandlerEnv) (m : ChatSessionManager)
    (data : FormData) (out : NormalizedMessage)
    (h1 : process_webhook data = .success out)
    (h2 : out.message_type = "text")
    (h3 : out.message_body ≠ "")
    (h4 : env.twilioAvailable = true) :
    (handle_webhook env m data).sends =
      [(out.sender_id,
        match env.aiResult with
        | .reply t => t
        | .raised _ => apologyText)] ∧
    (handle_webhook env m data).ack =
      (match env.sendResult with
       | .sent _ => { status := "success", message := "Mensagem processada" }
       | .failed e => { status := "error", message := "Falha ao enviar: " ++ e }) := by
  have hs := success_sender_ne_empty data out h1
  have hb : (out.message_body == "") = false := beq_eq_false_iff_ne.mpr h3
  unfold handle_webhook
  rw [h1]
  cases hA : env.aiResult <;> cases hS : env.sendResult <;>
    simp [h2, hb, hs, h4, hA, hS]

/-- Witness for C6: with a raising Gemini call and a failing Twilio send
on a concrete text message, exactly one send carrying the apology is
attempted and the acknowledgment reports the send failure. -/
theorem c6_witness :
    (handle_webhook (HandlerEnv.mk none (.raised "boom") (.failed "deu ruim") true)
        emptyManager
        [("MessageSid", "SM6"), ("From", "whatsapp:+15550001111"), ("Body", "hello")]).sends =
      [("+15550001111", apologyText)] ∧
    (handle_webhook (HandlerEnv.mk none (.raised "boom") (.failed "deu ruim") true)
        emptyManager
        [("MessageSid", "SM6"), ("From", "whatsapp:+15550001111"), ("Body", "hello")]).ack =
      { status := "error", message := "Falha ao enviar: deu ruim" } := by
  have h := c6_vendor_failures_absorbed
    (HandlerEnv.mk none (.raised "boom") (.failed "deu ruim") true) emptyManager
    [("MessageSid", "SM6"), ("From", "whatsapp:+15550001111"), ("Body", "hello")]
    { sender_id := "+15550001111", message_type := "text", timestamp := ""
      message_sid := some "SM6", account_sid := none, message_body := "hello"
      media_urls := []
      raw_message :=
        { from_ := "+15550001111", toAddr := "", type_ := "text"
          text := some "hello", message_sid := some "SM6" } }
    rfl rfl (by decide) rfl
  simpa using h

/-! ## Claim C5 -/

/-- Claim C5: two back-to-back `get_or_create_session` calls for the same
user id (with no intervening delete) return the same session object and
the same registry state, and after any sequence of registry operations
starting from the fresh manager, each user id is mapped to at most one
session. -/
theorem c5_session_uniqueness :
    (∀ (m : ChatSessionManager) (uid : String) (si tmpl si2 tmpl2 : Option String),
      (get_or_create_session (get_or_create_session m uid si tmpl).2 uid si2 tmpl2).1 =
        (get_or_create_session m uid si tmpl).1 ∧
      (get_or_create_session (get_or_create_session m uid si tmpl).2 uid si2 tmpl2).2 =
        (get_or_create_session m uid si tmpl).2) ∧
    (∀ (ops : List RegistryOp) (uid : String),
      userCount (applyOps emptyManager ops) uid ≤ 1) := by
  constructor
  · intro m uid si tmpl si2 tmpl2
    have h := lookup_after_create m uid si tmpl
    constructor
    · conv_lhs => rw [get_or_create_session, h]
    · conv_lhs => rw [get_or_create_session, h]
  · intro ops uid
    refine userCount_applyOps_le ops emptyManager ?_ uid
    intro u
    simp [userCount, emptyManager]
